import Mathlib

/-!
Shallow embedding of the configuration registry `_Config` from
`google/cloud/aiplatform/initializer.py` of the `python-aiplatform`
repository, together with proofs of the specified properties.

Python `Optional[str]` fields become `Option String`; Python truthiness of
an optional string (`if x:`) is `optStrTruthy`.  Exceptions become
`Except PyError` results.  The effectful ambient credential provider
(`google.auth.default()`) is embedded as a call-indexed oracle carried in a
`World` record that also counts provider invocations and tracks the filter
list of the `google.auth._default` logger, so that frame properties about
provider calls and logger filters can be stated.
-/

/-- Error taxonomy. `googleAuthError` embeds `google.auth.exceptions.GoogleAuthError`
(the spec's `AuthenticationError`), `valueError` embeds Python `ValueError`
(the spec's `ConfigurationError`), and `invalidArgument` is the region
validator's failure kind (the spec's `InvalidArgument`). -/
inductive PyError where
  | googleAuthError (msg : String)
  | valueError (msg : String)
  | invalidArgument (msg : String)
  deriving DecidableEq, Repr

/-- Opaque credential object (`google.auth.credentials.Credentials`).
Python objects are truthy, so truthiness of a stored `Option Cred` is
`Option.isSome`. -/
structure Cred where
  id : Nat
  deriving DecidableEq, Repr

/-- One outcome of a call to the ambient credential provider
`google.auth.default()`: either a `(credentials, project_id)` pair, where
`project_id` may be absent, or a raised `GoogleAuthError` with a message. -/
inductive ProviderResult where
  | ok (creds : Cred) (projectId : Option String)
  | authError (msg : String)
  deriving DecidableEq, Repr

/-- Python truthiness of an `Optional[str]`: `None` and `""` are falsy. -/
def optStrTruthy : Option String → Bool
  | none => false
  | some s => s != ""

/-- Python truthiness of a plain `str`. -/
def strTruthy (s : String) : Bool := s != ""

/-- Python `str.lower()` (ASCII case folding, which covers region strings),
embedded structurally over the character list so it is kernel-reducible. -/
def pyLower (s : String) : String := ⟨s.data.map Char.toLower⟩

deriving instance DecidableEq for Except

/-- The ambient world threaded through effectful reads: the credential
provider as a call-indexed oracle, the number of provider invocations made
so far, and the filter list of the `google.auth._default` logger (filters
are identified by the fresh-id counter `nextId`). -/
structure World where
  provider : Nat → ProviderResult
  calls : Nat
  nextId : Nat
  filters : List Nat

/-- The registry state: the six fields set by `_Config.__init__`. -/
structure Config where
  _project : Option String
  _experiment : Option String
  _location : Option String
  _staging_bucket : Option String
  _credentials : Option Cred
  _encryption_spec_key_name : Option String
  deriving DecidableEq, Repr

/-- The state produced by `_Config.__init__`: every field `None`. -/
def Config.fresh : Config :=
  ⟨none, none, none, none, none, none⟩

/-- Modelled from the spec: `constants.DEFAULT_REGION` (the fixed fallback
region constant; `constants.py` is not under `src/`).  The spec says reading
`location` when never set "returns the fixed default region constant
exactly" and the source docstring says it "defaults to us-central-1"; the
endpoint example `us-central1-aiplatform.googleapis.com` in the source
fixes the value. -/
def DEFAULT_REGION : String := "us-central1"

/-- Modelled from the spec: `constants.API_BASE_PATH` (the fixed base API
host; `constants.py` is not under `src/`).  The source docstring of
`get_client_options` shows endpoints of the form
`us-central1-aiplatform.googleapis.com`. -/
def API_BASE_PATH : String := "aiplatform.googleapis.com"

/-- Modelled from the spec: the supported region set consulted by the
region validator collaborator (`utils.validate_region`, not under `src/`).
The spec witnesses `us-central1` and `asia-east1` as recognized region
identifiers and `not-a-region` as unrecognized. -/
def SUPPORTED_REGIONS : List String := ["us-central1", "asia-east1"]

/-- Modelled from the spec: `utils.validate_region` (region validator
collaborator, not under `src/`): "fails with `InvalidArgument` if the
string is not a recognized region identifier".  Recognition is
case-insensitive: the spec stores `US-Central1` successfully at update time
while `get_client_options` lower-cases before validating. -/
def validate_region (region : String) : Except PyError Unit :=
  if SUPPORTED_REGIONS.contains (pyLower region) then Except.ok ()
  else Except.error (PyError.invalidArgument "Unsupported region for AI Platform.")

/-- Modelled from the spec: `compat.V1BETA1` (version selector string;
`compat` is not under `src/`). -/
def V1BETA1 : String := "v1beta1"

/-- Modelled from the spec: `compat.DEFAULT_VERSION` (the default schema
version; `compat` is not under `src/`).  The default compat module is the
v1 variant. -/
def DEFAULT_VERSION : String := "v1"

/-- The two encryption-spec schema variants (`encryption_spec_v1` and
`encryption_spec_v1beta1`), each a value object wrapping a KMS key name. -/
inductive EncryptionSpec where
  | v1Spec (kms_key_name : String)
  | v1beta1Spec (kms_key_name : String)
  deriving DecidableEq, Repr

/-- The key-name field of either encryption-spec variant. -/
def EncryptionSpec.kms_key_name : EncryptionSpec → String
  | .v1Spec k => k
  | .v1beta1Spec k => k

/-- GAPIC client options: the regionalized API endpoint. -/
structure ClientOptions where
  api_endpoint : String
  deriving DecidableEq, Repr

/-- Tail of `_Config.init` after the `location` block: the truthiness-guarded
assignments of `experiment`, `staging_bucket`, `credentials` and
`encryption_spec_key_name`, in source order. -/
def initTail (c : Config) (experiment staging_bucket : Option String)
    (credentials : Option Cred) (encryption_spec_key_name : Option String) : Config :=
  let c := if optStrTruthy experiment then { c with _experiment := experiment } else c
  let c := if optStrTruthy staging_bucket then { c with _staging_bucket := staging_bucket } else c
  let c := if credentials.isSome then { c with _credentials := credentials } else c
  if optStrTruthy encryption_spec_key_name then
    { c with _encryption_spec_key_name := encryption_spec_key_name }
  else c

/-- `_Config.init`: each truthy keyword argument overwrites its field, in
argument order; a truthy `location` is first passed through
`validate_region`, and on validation failure the raised error propagates
with the fields assigned so far already applied (no rollback). -/
def Config.init (c : Config) (project location experiment staging_bucket : Option String)
    (credentials : Option Cred) (encryption_spec_key_name : Option String) :
    Config × Option PyError :=
  let c := if optStrTruthy project then { c with _project := project } else c
  if optStrTruthy location then
    match validate_region (location.getD "") with
    | .error e => (c, some e)
    | .ok _ =>
        (initTail { c with _location := location } experiment staging_bucket
          credentials encryption_spec_key_name, none)
  else
    (initTail c experiment staging_bucket credentials encryption_spec_key_name, none)

/-- Message raised by the `project` property when no project resolves. -/
def project_not_found_exception_str : String :=
  "Unable to find your project. Please provide a project ID by:\n- Passing a constructor argument\n- Using aiplatform.init()\n- Setting a GCP environment variable"

/-- The `_Config.project` property: returns the stored project if truthy;
otherwise invokes the credential provider (incrementing the call counter),
re-raising a provider failure as a `GoogleAuthError` carrying the SDK's
fixed remediation text, raising `ValueError` with the same text when the
provider yields no (truthy) project id, and returning the provider's
project id otherwise.  The registry state is returned unchanged: the
property contains no assignment. -/
def Config.project (c : Config) (w : World) :
    Except PyError String × Config × World :=
  if optStrTruthy c._project then (.ok (c._project.getD ""), c, w)
  else
    let res := w.provider w.calls
    let w := { w with calls := w.calls + 1 }
    match res with
    | .authError _ =>
        (.error (.googleAuthError project_not_found_exception_str), c, w)
    | .ok _ project_id =>
        if !(optStrTruthy project_id) then
          (.error (.valueError project_not_found_exception_str), c, w)
        else (.ok (project_id.getD ""), c, w)

/-- The `_Config.location` property: stored location if truthy, else the
default region constant. -/
def Config.location (c : Config) : String :=
  match c._location with
  | some l => if l != "" then l else DEFAULT_REGION
  | none => DEFAULT_REGION

/-- The `_Config.encryption_spec_key_name` property. -/
def Config.encryption_spec_key_name (c : Config) : Option String :=
  c._encryption_spec_key_name

/-- The `_Config.credentials` property: returns stored credentials if set;
otherwise installs a fresh warning filter on the `google.auth._default`
logger, invokes the credential provider, and removes the filter after
the call returns.  There is no try/finally in the source: when the
provider raises, the exception propagates (message unchanged) with the
filter still installed.  The registry state is returned unchanged. -/
def Config.credentials (c : Config) (w : World) :
    Except PyError Cred × Config × World :=
  match c._credentials with
  | some cr => (.ok cr, c, w)
  | none =>
      let fid := w.nextId
      let w := { w with nextId := w.nextId + 1, filters := w.filters ++ [fid] }
      let res := w.provider w.calls
      let w := { w with calls := w.calls + 1 }
      match res with
      | .authError m => (.error (.googleAuthError m), c, w)
      | .ok cr _ => (.ok cr, c, { w with filters := w.filters.erase fid })

/-- `_Config.get_encryption_spec`: effective key name is the argument if
truthy, else the stored default; if the effective name is falsy the result
is `none`, otherwise a version-selected encryption-spec value object
wrapping the key name (`v1beta1` iff `select_version` equals the v1beta1
selector, the default compat variant being v1). -/
def Config.get_encryption_spec (c : Config) (encryption_spec_key_name : Option String)
    (select_version : String) : Option EncryptionSpec :=
  let kms_key_name :=
    if optStrTruthy encryption_spec_key_name then encryption_spec_key_name
    else c.encryption_spec_key_name
  match kms_key_name with
  | some k =>
      if k != "" then
        if select_version == V1BETA1 then some (EncryptionSpec.v1beta1Spec k)
        else some (EncryptionSpec.v1Spec k)
      else none
  | none => none

/-- `_Config.get_client_options`: raises `ValueError` when neither the
`location` read nor the override is truthy; otherwise resolves the region
as the override if truthy else the `location` read, lower-cases it,
validates it, and returns client options with the regionalized endpoint. -/
def Config.get_client_options (c : Config) (location_override : Option String) :
    Except PyError ClientOptions :=
  if !(strTruthy c.location || optStrTruthy location_override) then
    .error (.valueError "No location found. Provide or initialize SDK with a location.")
  else
    let region :=
      if optStrTruthy location_override then location_override.getD "" else c.location
    let region := pyLower region
    match validate_region region with
    | .error e => .error e
    | .ok _ => .ok ⟨region ++ "-" ++ API_BASE_PATH⟩

/-- The join step of `_Config.common_location_path`: resolve the project
(argument if truthy, else the `project` property read, whose provider call
and failures apply), then build
`projects/{project}/locations/{location}` with the location resolved as
argument if truthy else the `location` property. -/
def commonLocationJoin (c : Config) (w : World)
    (project location : Option String) :
    Except PyError String × Config × World :=
  let r := if optStrTruthy project then (Except.ok (project.getD ""), c, w) else c.project w
  match r with
  | (.error e, c, w) => (.error e, c, w)
  | (.ok p, c, w) =>
      let l := if optStrTruthy location then location.getD "" else c.location
      (.ok ("projects/" ++ p ++ "/locations/" ++ l), c, w)

/-- `_Config.common_location_path`: a truthy `location` argument is
validated first (a validation failure propagates before any project
resolution), then the parent path is built by `commonLocationJoin`. -/
def Config.common_location_path (c : Config) (w : World)
    (project location : Option String) :
    Except PyError String × Config × World :=
  if optStrTruthy location then
    match validate_region (location.getD "") with
    | .error e => (.error e, c, w)
    | .ok _ => commonLocationJoin c w project location
  else commonLocationJoin c w project location

/-! ## Helper lemmas -/

/-- `initTail` is the independent truthiness-guarded update of the last
four fields. -/
theorem initTail_fields (c : Config) (e sb : Option String) (cr : Option Cred)
    (k : Option String) :
    initTail c e sb cr k =
      { c with
        _experiment := if optStrTruthy e then e else c._experiment,
        _staging_bucket := if optStrTruthy sb then sb else c._staging_bucket,
        _credentials := if cr.isSome then cr else c._credentials,
        _encryption_spec_key_name :=
          if optStrTruthy k then k else c._encryption_spec_key_name } := by
  simp only [initTail]
  cases he : optStrTruthy e <;> cases hsb : optStrTruthy sb <;>
    cases hcr : cr.isSome <;> cases hk : optStrTruthy k <;> simp

/-- The `location` read never yields an empty string: either the stored
location is a non-empty string, or the non-empty default region is used. -/
theorem location_ne_empty (c : Config) : c.location ≠ "" := by
  simp only [Config.location]
  cases h : c._location with
  | none => decide
  | some l =>
      by_cases hl : l = ""
      · simp [hl]; decide
      · simp [hl]

/-! ## C1: merge semantics of the update operation -/

/-- C1: for every registry state and every `init` call that completes
without error, each truthy option overwrites exactly its own stored field
and every absent or falsy option leaves its stored field unchanged;
`init(project=P)` followed by `init(location=L)` yields a state whose
`project` read is `P` and whose `location` read is `L`; and
`init(project="")` leaves the stored project (and the whole state)
unchanged. -/
theorem init_merge_semantics :
    (∀ (c : Config) (p l e sb : Option String) (cr : Option Cred) (k : Option String)
        (c' : Config), c.init p l e sb cr k = (c', none) →
      c'._project = (if optStrTruthy p then p else c._project) ∧
      c'._location = (if optStrTruthy l then l else c._location) ∧
      c'._experiment = (if optStrTruthy e then e else c._experiment) ∧
      c'._staging_bucket = (if optStrTruthy sb then sb else c._staging_bucket) ∧
      c'._credentials = (if cr.isSome then cr else c._credentials) ∧
      c'._encryption_spec_key_name =
        (if optStrTruthy k then k else c._encryption_spec_key_name)) ∧
    (∀ (c : Config) (P L : String) (w : World), P ≠ "" → L ≠ "" →
      validate_region L = Except.ok () →
      ((((c.init (some P) none none none none none).1.init
          none (some L) none none none none).1.project w).1 = Except.ok P ∧
        ((c.init (some P) none none none none none).1.init
          none (some L) none none none none).1.location = L)) ∧
    (∀ c : Config, c.init (some "") none none none none none = (c, none)) := by
  refine ⟨?_, ?_, ?_⟩
  · intro c p l e sb cr k c' h
    simp only [Config.init] at h
    by_cases hl : optStrTruthy l = true
    · rw [if_pos hl] at h
      cases hv : validate_region (l.getD "") with
      | error ex => rw [hv] at h; simp at h
      | ok u =>
          rw [hv] at h
          simp only [Prod.mk.injEq] at h
          rw [initTail_fields] at h
          obtain ⟨h1, -⟩ := h
          subst h1
          by_cases hp : optStrTruthy p = true <;>
            simp [hp, hl]
    · rw [if_neg hl] at h
      simp only [Prod.mk.injEq] at h
      rw [initTail_fields] at h
      obtain ⟨h1, -⟩ := h
      subst h1
      by_cases hp : optStrTruthy p = true <;>
        simp [hp, hl]
  · intro c P L w hP hL hv
    simp only [Config.init, initTail_fields]
    simp [Config.project, Config.location, optStrTruthy, hP, hL, hv]
  · intro c
    simp [Config.init, initTail_fields, optStrTruthy]

/-- C1 witness: a concrete run of the merge property on the fresh state. -/
theorem init_merge_semantics_witness :
    ((Config.fresh.init (some "proj-a") (some "asia-east1") none none none none).1._project
        = some "proj-a" ∧
      (Config.fresh.init (some "proj-a") (some "asia-east1") none none none
        none).1._location = some "asia-east1") ∧
    ((((Config.fresh.init (some "P") none none none none none).1.init
        none (some "us-central1") none none none none).1.project
        ⟨fun _ => .authError "", 0, 0, []⟩).1 = Except.ok "P") ∧
    (Config.fresh.init (some "") none none none none none = (Config.fresh, none)) := by
  refine ⟨?_, ?_, init_merge_semantics.2.2 Config.fresh⟩
  · have h := init_merge_semantics.1 Config.fresh (some "proj-a") (some "asia-east1")
      none none none none
      (Config.fresh.init (some "proj-a") (some "asia-east1") none none none none).1
      (by decide)
    exact ⟨by rw [h.1]; decide, by rw [h.2.1]; decide⟩
  · exact (init_merge_semantics.2.1 Config.fresh "P" "us-central1"
      ⟨fun _ => .authError "", 0, 0, []⟩ (by decide) (by decide) (by decide)).1

/-! ## More helper lemmas -/

/-- The `project` property body contains no assignment: the registry state
comes back unchanged on every branch. -/
theorem project_config_unchanged (c : Config) (w : World) :
    (c.project w).2.1 = c := by
  simp only [Config.project]
  by_cases hp : optStrTruthy c._project = true
  · simp [hp]
  · simp only [hp, if_false, Bool.false_eq_true]
    cases w.provider w.calls with
    | authError m => simp
    | ok cr pid => by_cases hpid : optStrTruthy pid = true <;> simp [hpid]

/-- When the stored project is not truthy, a `project` read invokes the
provider exactly once: the resulting world is the input world with the
call counter advanced by one (filters and ids untouched). -/
theorem project_unset_world (c : Config) (w : World)
    (hp : optStrTruthy c._project = false) :
    (c.project w).2.2 = { w with calls := w.calls + 1 } := by
  simp only [Config.project, hp, if_false, Bool.false_eq_true]
  cases w.provider w.calls with
  | authError m => simp
  | ok cr pid => by_cases hpid : optStrTruthy pid = true <;> simp [hpid]

/-- The `credentials` property body contains no assignment either. -/
theorem credentials_config_unchanged (c : Config) (w : World) :
    (c.credentials w).2.1 = c := by
  simp only [Config.credentials]
  cases c._credentials with
  | some cr => simp
  | none =>
      cases w.provider w.calls with
      | authError m => simp
      | ok cr pid => simp

/-- When no credentials are stored, a `credentials` read invokes the
provider exactly once. -/
theorem credentials_unset_calls (c : Config) (w : World)
    (hc : c._credentials = none) :
    (c.credentials w).2.2.calls = w.calls + 1 ∧
      (c.credentials w).2.2.provider = w.provider ∧
      (c.credentials w).2.2.nextId = w.nextId + 1 := by
  simp only [Config.credentials, hc]
  cases w.provider w.calls with
  | authError m => simp
  | ok cr pid => simp

/-- A `validate_region` failure is always the `InvalidArgument` kind with
the validator's fixed message. -/
theorem validate_region_error (r : String) (e : PyError)
    (h : validate_region r = Except.error e) :
    e = PyError.invalidArgument "Unsupported region for AI Platform." := by
  simp only [validate_region] at h
  split at h
  · simp at h
  · simp only [Except.error.injEq] at h
    exact h.symm

/-- The `location` read is Python-truthy for every state. -/
theorem strTruthy_location (c : Config) : strTruthy c.location = true := by
  simp only [strTruthy, bne_iff_ne, ne_eq]
  exact location_ne_empty c

/-! ## C2: resolution and failure modes of the project read -/

/-- C2: the `project` read returns the stored project when it is set
(truthy); when unset it queries the credential provider and: fails with a
`GoogleAuthError` (the spec's `AuthenticationError`) if the provider itself
fails, fails with a `ValueError` (the spec's `ConfigurationError`) if the
provider succeeds but yields no truthy project id, and returns the
provider's project id otherwise. -/
theorem project_read_resolution (c : Config) (w : World) :
    (∀ p : String, c._project = some p → p ≠ "" → (c.project w).1 = Except.ok p) ∧
    (optStrTruthy c._project = false →
      ((∀ m, w.provider w.calls = ProviderResult.authError m →
          (c.project w).1 =
            Except.error (PyError.googleAuthError project_not_found_exception_str)) ∧
        (∀ cr pid, w.provider w.calls = ProviderResult.ok cr pid →
          optStrTruthy pid = false →
          (c.project w).1 =
            Except.error (PyError.valueError project_not_found_exception_str)) ∧
        (∀ cr pid, w.provider w.calls = ProviderResult.ok cr (some pid) → pid ≠ "" →
          (c.project w).1 = Except.ok pid))) := by
  constructor
  · intro p hp hpne
    simp [Config.project, hp, optStrTruthy, hpne]
  · intro hunset
    refine ⟨?_, ?_, ?_⟩
    · intro m hm
      simp [Config.project, hunset, hm]
    · intro cr pid hres hpid
      simp [Config.project, hunset, hres, hpid]
    · intro cr pid hres hpid
      have h1 : optStrTruthy (some pid) = true := by simp [optStrTruthy, hpid]
      simp [Config.project, hunset, hres, h1]

/-- C2 witness: concrete runs of all four cases of the project read. -/
theorem project_read_resolution_witness :
    ((⟨some "stored-proj", none, none, none, none, none⟩ : Config).project
        ⟨fun _ => .authError "x", 0, 0, []⟩).1 = Except.ok "stored-proj" ∧
    (Config.fresh.project ⟨fun _ => .authError "x", 0, 0, []⟩).1 =
      Except.error (PyError.googleAuthError project_not_found_exception_str) ∧
    (Config.fresh.project ⟨fun _ => .ok ⟨7⟩ none, 0, 0, []⟩).1 =
      Except.error (PyError.valueError project_not_found_exception_str) ∧
    (Config.fresh.project ⟨fun _ => .ok ⟨7⟩ (some "ambient-proj"), 0, 0, []⟩).1 =
      Except.ok "ambient-proj" := by
  refine ⟨?_, ?_, ?_, ?_⟩
  · exact (project_read_resolution ⟨some "stored-proj", none, none, none, none, none⟩
      ⟨fun _ => .authError "x", 0, 0, []⟩).1 "stored-proj" rfl (by decide)
  · exact ((project_read_resolution Config.fresh
      ⟨fun _ => .authError "x", 0, 0, []⟩).2 (by decide)).1 "x" rfl
  · exact ((project_read_resolution Config.fresh
      ⟨fun _ => .ok ⟨7⟩ none, 0, 0, []⟩).2 (by decide)).2.1 ⟨7⟩ none rfl (by decide)
  · exact ((project_read_resolution Config.fresh
      ⟨fun _ => .ok ⟨7⟩ (some "ambient-proj"), 0, 0, []⟩).2 (by decide)).2.2
      ⟨7⟩ "ambient-proj" rfl (by decide)

/-! ## C6: the message of the authentication failure -/

/-- C6 counterexample: with the provider raising with message "boom", the
`project` read raises a `GoogleAuthError` whose message is the SDK's fixed
remediation text, which is not the provider's own message: the provider's
text is not wrapped unchanged. -/
theorem project_auth_error_message_counterexample :
    (Config.fresh.project ⟨fun _ => .authError "boom", 0, 0, []⟩).1 =
      Except.error (PyError.googleAuthError project_not_found_exception_str) ∧
    project_not_found_exception_str ≠ "boom" := by
  constructor
  · rfl
  · decide

/-- C6 amended: with project unset and the provider raising (with any
message), the `project` read fails with a `GoogleAuthError` whose message
is the SDK's fixed remediation text, independent of the provider's own
message. -/
theorem project_auth_error_fixed_message (c : Config) (w : World) (m : String)
    (hp : optStrTruthy c._project = false)
    (hm : w.provider w.calls = ProviderResult.authError m) :
    (c.project w).1 =
      Except.error (PyError.googleAuthError project_not_found_exception_str) := by
  simp [Config.project, hp, hm]

/-- C6 amended witness: concrete run with provider message "boom". -/
theorem project_auth_error_fixed_message_witness :
    (Config.fresh.project ⟨fun _ => .authError "boom", 42, 0, []⟩).1 =
      Except.error (PyError.googleAuthError project_not_found_exception_str) :=
  project_auth_error_fixed_message Config.fresh
    ⟨fun _ => .authError "boom", 42, 0, []⟩ "boom" (by decide) rfl

/-! ## C7: lazy resolution is never memoized -/

/-- C7: when the project (respectively credentials) field was never set,
every read of that property invokes the credential provider (the call
counter advances by one per read, so two consecutive reads advance it by
two), and no read writes the resolved value back into the registry: the
registry state after each read equals the state before it. -/
theorem lazy_resolution_not_memoized :
    (∀ (c : Config) (w : World), optStrTruthy c._project = false →
      (c.project w).2.1 = c ∧ (c.project w).2.2.calls = w.calls + 1 ∧
        (c.project w).2.2.provider = w.provider) ∧
    (∀ (c : Config) (w : World), optStrTruthy c._project = false →
      ((c.project w).2.1.project (c.project w).2.2).2.2.calls = w.calls + 2) ∧
    (∀ (c : Config) (w : World), c._credentials = none →
      (c.credentials w).2.1 = c ∧ (c.credentials w).2.2.calls = w.calls + 1 ∧
        (c.credentials w).2.2.provider = w.provider) ∧
    (∀ (c : Config) (w : World), c._credentials = none →
      ((c.credentials w).2.1.credentials (c.credentials w).2.2).2.2.calls =
        w.calls + 2) := by
  refine ⟨?_, ?_, ?_, ?_⟩
  · intro c w hp
    exact ⟨project_config_unchanged c w,
      by rw [project_unset_world c w hp],
      by rw [project_unset_world c w hp]⟩
  · intro c w hp
    rw [project_config_unchanged c w, project_unset_world c w hp,
      project_unset_world c _ hp]
  · intro c w hc
    obtain ⟨h1, h2, -⟩ := credentials_unset_calls c w hc
    exact ⟨credentials_config_unchanged c w, h1, h2⟩
  · intro c w hc
    rw [credentials_config_unchanged c w]
    obtain ⟨h1, -, -⟩ := credentials_unset_calls c (c.credentials w).2.2 hc
    rw [h1, (credentials_unset_calls c w hc).1]

/-- C7 witness: on the fresh state, two consecutive project reads and two
consecutive credentials reads each invoke the provider twice, and neither
read mutates the registry. -/
theorem lazy_resolution_not_memoized_witness :
    ((Config.fresh.project ⟨fun _ => .ok ⟨1⟩ (some "p"), 0, 0, []⟩).2.1 = Config.fresh ∧
      ((Config.fresh.project ⟨fun _ => .ok ⟨1⟩ (some "p"), 0, 0, []⟩).2.1.project
        (Config.fresh.project ⟨fun _ => .ok ⟨1⟩ (some "p"), 0, 0, []⟩).2.2).2.2.calls = 2) ∧
    ((Config.fresh.credentials ⟨fun _ => .ok ⟨1⟩ (some "p"), 0, 0, []⟩).2.1 = Config.fresh ∧
      ((Config.fresh.credentials ⟨fun _ => .ok ⟨1⟩ (some "p"), 0, 0, []⟩).2.1.credentials
        (Config.fresh.credentials ⟨fun _ => .ok ⟨1⟩ (some "p"), 0, 0, []⟩).2.2).2.2.calls = 2) := by
  refine ⟨⟨?_, ?_⟩, ?_, ?_⟩
  · exact (lazy_resolution_not_memoized.1 Config.fresh
      ⟨fun _ => .ok ⟨1⟩ (some "p"), 0, 0, []⟩ (by decide)).1
  · exact lazy_resolution_not_memoized.2.1 Config.fresh
      ⟨fun _ => .ok ⟨1⟩ (some "p"), 0, 0, []⟩ (by decide)
  · exact (lazy_resolution_not_memoized.2.2.1 Config.fresh
      ⟨fun _ => .ok ⟨1⟩ (some "p"), 0, 0, []⟩ rfl).1
  · exact lazy_resolution_not_memoized.2.2.2 Config.fresh
      ⟨fun _ => .ok ⟨1⟩ (some "p"), 0, 0, []⟩ rfl

/-! ## C9: scoping of the temporary warning filter -/

/-- C9 counterexample: with no stored credentials and a failing provider,
the `credentials` read leaves the freshly installed filter on the logger
(the filter list goes from empty to one element): the filter is not
removed on the failure exit path, so the filter set after the read does
not equal the filter set before it. -/
theorem credentials_filter_leak_counterexample :
    (Config.fresh.credentials ⟨fun _ => .authError "no creds", 0, 0, []⟩).2.2.filters =
      [0] ∧
    (⟨fun _ => .authError "no creds", 0, 0, []⟩ : World).filters = [] := by
  exact ⟨rfl, rfl⟩

/-- C9 amended: with no stored credentials, a fresh warning filter is
installed on the provider logger before the provider call; when the call
returns normally the filter is removed again, restoring the logger's
filter list (given the well-formedness condition that installed filter ids
are below the fresh-id counter); when the provider raises, the exception
propagates before the removal and the filter remains installed. -/
theorem credentials_filter_scoping (c : Config) (w : World)
    (hc : c._credentials = none)
    (hwf : ∀ f ∈ w.filters, f < w.nextId) :
    (∀ cr pid, w.provider w.calls = ProviderResult.ok cr pid →
      (c.credentials w).2.2.filters = w.filters) ∧
    (∀ m, w.provider w.calls = ProviderResult.authError m →
      (c.credentials w).2.2.filters = w.filters ++ [w.nextId]) := by
  have hnotmem : w.nextId ∉ w.filters := by
    intro hmem
    exact absurd rfl (Nat.ne_of_lt (hwf w.nextId hmem))
  constructor
  · intro cr pid hres
    simp only [Config.credentials, hc, hres]
    rw [List.erase_append_right _ hnotmem]
    simp
  · intro m hres
    simp [Config.credentials, hc, hres]

/-- C9 amended witness: concrete success and failure runs starting from an
empty filter list. -/
theorem credentials_filter_scoping_witness :
    (Config.fresh.credentials ⟨fun _ => .ok ⟨3⟩ none, 0, 0, []⟩).2.2.filters = [] ∧
    (Config.fresh.credentials ⟨fun _ => .authError "down", 0, 0, []⟩).2.2.filters =
      [] ++ [0] := by
  constructor
  · exact (credentials_filter_scoping Config.fresh ⟨fun _ => .ok ⟨3⟩ none, 0, 0, []⟩
      rfl (by intro f hf; cases hf)).1 ⟨3⟩ none rfl
  · exact (credentials_filter_scoping Config.fresh
      ⟨fun _ => .authError "down", 0, 0, []⟩ rfl (by intro f hf; cases hf)).2 "down" rfl

/-! ## C3: client options with no stored location and no override -/

/-- C3 counterexample: on the fresh registry (no location ever stored) and
with no override, `get_client_options` does not fail: the `location` read
falls back to the default region constant, so the call succeeds with the
default-region endpoint instead of raising the no-location error. -/
theorem get_client_options_no_location_counterexample :
    Config.fresh.get_client_options none =
      Except.ok ⟨"us-central1-aiplatform.googleapis.com"⟩ := by
  decide

/-- C3 amended: for every registry state in which no truthy location was
stored, `get_client_options` with no override succeeds and returns the
endpoint built from the default region; the no-location `ValueError`
branch is unreachable because the `location` read never yields a falsy
value. -/
theorem get_client_options_default_region (c : Config)
    (hl : optStrTruthy c._location = false) :
    c.get_client_options none =
      Except.ok ⟨DEFAULT_REGION ++ "-" ++ API_BASE_PATH⟩ := by
  have hloc : c.location = DEFAULT_REGION := by
    simp only [Config.location]
    cases h : c._location with
    | none => rfl
    | some l =>
        rw [h] at hl
        simp only [optStrTruthy] at hl
        simp [hl]
  simp only [Config.get_client_options, hloc]
  decide

/-- C3 amended witness: the fresh registry. -/
theorem get_client_options_default_region_witness :
    Config.fresh.get_client_options none =
      Except.ok ⟨DEFAULT_REGION ++ "-" ++ API_BASE_PATH⟩ :=
  get_client_options_default_region Config.fresh (by decide)

/-! ## C5: the regionalized API endpoint -/

/-- C5: whenever the resolved region (override if truthy, else the
`location` read) passes validation after lower-casing, `get_client_options`
returns client options whose API endpoint is the lower-cased region
followed by "-" and the fixed base API host. -/
theorem get_client_options_endpoint (c : Config) (ov : Option String)
    (hv : validate_region
      (pyLower (if optStrTruthy ov then ov.getD "" else c.location)) =
        Except.ok ()) :
    c.get_client_options ov =
      Except.ok
        ⟨pyLower (if optStrTruthy ov then ov.getD "" else c.location) ++ "-" ++
          API_BASE_PATH⟩ := by
  have hguard : (strTruthy c.location || optStrTruthy ov) = true := by
    rw [strTruthy_location c, Bool.true_or]
  simp only [Config.get_client_options, hguard, Bool.not_true, Bool.false_eq_true,
    if_false, hv]

/-- C5 witness: with stored location "US-Central1" the endpoint is the
case-folded "us-central1-aiplatform.googleapis.com". -/
theorem get_client_options_endpoint_witness :
    (⟨none, none, some "US-Central1", none, none, none⟩ : Config).get_client_options
        none = Except.ok ⟨"us-central1-aiplatform.googleapis.com"⟩ := by
  have h := get_client_options_endpoint
    ⟨none, none, some "US-Central1", none, none, none⟩ none (by decide)
  rw [h]
  decide

/-! ## C4: the update operation is not transactional across fields -/

/-- C4: `init` validates and applies fields independently in argument
order: called with a truthy project and a truthy but invalid location it
raises `InvalidArgument` with the project already applied and every other
field (including the stored location) unchanged; and in the concrete
scenario, after storing "asia-east1" an update with "not-a-region" raises
`InvalidArgument` and leaves the stored location at "asia-east1". -/
theorem init_not_transactional :
    (∀ (c : Config) (p l e sb : Option String) (cr : Option Cred) (k : Option String)
        (err : PyError),
      optStrTruthy p = true → optStrTruthy l = true →
      validate_region (l.getD "") = Except.error err →
      c.init p l e sb cr k = ({ c with _project := p }, some err) ∧
        ∃ m, err = PyError.invalidArgument m) ∧
    ((Config.fresh.init none (some "asia-east1") none none none none).1.location =
        "asia-east1" ∧
      (Config.fresh.init none (some "asia-east1") none none none none).1.init
          none (some "not-a-region") none none none none =
        ((Config.fresh.init none (some "asia-east1") none none none none).1,
          some (PyError.invalidArgument "Unsupported region for AI Platform.")) ∧
      ((Config.fresh.init none (some "asia-east1") none none none none).1.init
          none (some "not-a-region") none none none none).1.location =
        "asia-east1") := by
  constructor
  · intro c p l e sb cr k err hp hl hv
    refine ⟨?_, "Unsupported region for AI Platform.", validate_region_error _ _ hv⟩
    simp [Config.init, hp, hl, hv]
  · refine ⟨by decide, by decide, by decide⟩

/-- C4 witness: a concrete partial update, with the project applied and
the invalid location rejected. -/
theorem init_not_transactional_witness :
    Config.fresh.init (some "p1") (some "not-a-region") none none none none =
      ({ Config.fresh with _project := some "p1" },
        some (PyError.invalidArgument "Unsupported region for AI Platform.")) :=
  (init_not_transactional.1 Config.fresh (some "p1") (some "not-a-region")
    none none none none
    (PyError.invalidArgument "Unsupported region for AI Platform.")
    (by decide) (by decide) (by decide)).1

/-! ## C8: encryption-spec resolution -/

/-- C8: the effective key name of `get_encryption_spec` is the explicit
argument if truthy, else the stored default; when no truthy key name
resolves the result is `none`, and otherwise the result is an
encryption-spec value object whose key-name field equals the effective
key name, the version argument only selecting which of the two schema
variants is instantiated. -/
theorem get_encryption_spec_resolution (c : Config) (key : Option String) (v : String) :
    (optStrTruthy (if optStrTruthy key then key else c._encryption_spec_key_name) =
        false →
      c.get_encryption_spec key v = none) ∧
    (∀ s : String,
      (if optStrTruthy key then key else c._encryption_spec_key_name) = some s →
      s ≠ "" →
      c.get_encryption_spec key v =
        some (if v == V1BETA1 then EncryptionSpec.v1beta1Spec s
          else EncryptionSpec.v1Spec s) ∧
      (c.get_encryption_spec key v).map EncryptionSpec.kms_key_name = some s) := by
  constructor
  · intro h
    simp only [Config.get_encryption_spec, Config.encryption_spec_key_name]
    cases heff : (if optStrTruthy key then key else c._encryption_spec_key_name) with
    | none => rfl
    | some s =>
        rw [heff] at h
        simp only [optStrTruthy] at h
        simp [h]
  · intro s heff hs
    have hs' : (s != "") = true := by simp [hs]
    simp only [Config.get_encryption_spec, Config.encryption_spec_key_name]
    rw [heff]
    simp only [hs', if_true]
    by_cases hv : (v == V1BETA1) = true <;>
      simp [hv, EncryptionSpec.kms_key_name]

/-- C8 witness: no key resolves on the fresh state; a stored key is
wrapped in the v1 variant under the default version and in the v1beta1
variant under the v1beta1 selector; an explicit key wins. -/
theorem get_encryption_spec_resolution_witness :
    Config.fresh.get_encryption_spec none DEFAULT_VERSION = none ∧
    (⟨none, none, none, none, none, some "projects/p/key"⟩ : Config).get_encryption_spec
        none DEFAULT_VERSION = some (EncryptionSpec.v1Spec "projects/p/key") ∧
    (⟨none, none, none, none, none, some "projects/p/key"⟩ : Config).get_encryption_spec
        none V1BETA1 = some (EncryptionSpec.v1beta1Spec "projects/p/key") ∧
    Config.fresh.get_encryption_spec (some "explicit-key") DEFAULT_VERSION =
      some (EncryptionSpec.v1Spec "explicit-key") := by
  refine ⟨?_, ?_, ?_, ?_⟩
  · exact (get_encryption_spec_resolution Config.fresh none DEFAULT_VERSION).1
      (by decide)
  · have h := ((get_encryption_spec_resolution
      ⟨none, none, none, none, none, some "projects/p/key"⟩ none DEFAULT_VERSION).2
      "projects/p/key" (by decide) (by decide)).1
    rw [h]; decide
  · have h := ((get_encryption_spec_resolution
      ⟨none, none, none, none, none, some "projects/p/key"⟩ none V1BETA1).2
      "projects/p/key" (by decide) (by decide)).1
    rw [h]; decide
  · have h := ((get_encryption_spec_resolution Config.fresh (some "explicit-key")
      DEFAULT_VERSION).2 "explicit-key" (by decide) (by decide)).1
    rw [h]; decide

/-! ## C10: the common location path -/

/-- When the project resolves (truthy argument, else a successful
`project` read), the join step yields the parent path with the location
resolved as argument if truthy else the `location` read. -/
theorem commonLocationJoin_ok (c : Config) (w : World) (p l : Option String)
    (ps : String)
    (hps : (if optStrTruthy p then Except.ok (p.getD "") else (c.project w).1) =
      Except.ok ps) :
    (commonLocationJoin c w p l).1 =
      Except.ok ("projects/" ++ ps ++ "/locations/" ++
        (if optStrTruthy l then l.getD "" else c.location)) := by
  by_cases hp : optStrTruthy p = true
  · rw [if_pos hp] at hps
    simp only [Except.ok.injEq] at hps
    subst hps
    simp [commonLocationJoin, hp]
  · simp only [hp, Bool.false_eq_true, if_false] at hps
    rcases hcp : c.project w with ⟨res, c2, w2⟩
    rw [hcp] at hps
    simp only at hps
    subst hps
    have hc2 : c2 = c := by
      have h := project_config_unchanged c w
      rw [hcp] at h
      exact h
    subst hc2
    simp [commonLocationJoin, hp, hcp]

/-- A failing `project` read propagates through the join step. -/
theorem commonLocationJoin_error (c : Config) (w : World) (p l : Option String)
    (e : PyError) (hp : optStrTruthy p = false)
    (he : (c.project w).1 = Except.error e) :
    (commonLocationJoin c w p l).1 = Except.error e := by
  rcases hcp : c.project w with ⟨res, c2, w2⟩
  rw [hcp] at he
  simp only at he
  subst he
  simp [commonLocationJoin, hp, hcp]

/-- C10 counterexample: `common_location_path(project="p1", location="l1")`
does not return "projects/p1/locations/l1": the supplied location "l1" is
not a recognized region, so the call fails with the validator's
`InvalidArgument` before any path is built. -/
theorem common_location_path_example_counterexample :
    (Config.fresh.common_location_path ⟨fun _ => .authError "x", 0, 0, []⟩
        (some "p1") (some "l1")).1 =
      Except.error (PyError.invalidArgument "Unsupported region for AI Platform.") := by
  decide

/-- C10 amended: a truthy location argument is validated first, with a
validation failure propagating before any project resolution; when the
resolved project is the truthy argument or a successful `project` read,
the result is "projects/{resolved project}/locations/{resolved location}"
with the location resolved as the argument if truthy else the registry's
`location`; a failing `project` read propagates; and in particular
`common_location_path(project="p1", location="asia-east1")` (a validated
region, unlike the spec's "l1") returns exactly
"projects/p1/locations/asia-east1". -/
theorem common_location_path_resolution :
    (∀ (c : Config) (w : World) (p l : Option String) (err : PyError),
      optStrTruthy l = true → validate_region (l.getD "") = Except.error err →
      c.common_location_path w p l = (Except.error err, c, w)) ∧
    (∀ (c : Config) (w : World) (p l : Option String) (ps : String),
      (optStrTruthy l = true → validate_region (l.getD "") = Except.ok ()) →
      (if optStrTruthy p then Except.ok (p.getD "") else (c.project w).1) =
        Except.ok ps →
      (c.common_location_path w p l).1 =
        Except.ok ("projects/" ++ ps ++ "/locations/" ++
          (if optStrTruthy l then l.getD "" else c.location))) ∧
    (∀ (c : Config) (w : World) (p l : Option String) (e : PyError),
      (optStrTruthy l = true → validate_region (l.getD "") = Except.ok ()) →
      optStrTruthy p = false → (c.project w).1 = Except.error e →
      (c.common_location_path w p l).1 = Except.error e) ∧
    (∀ (w : World),
      (Config.fresh.common_location_path w (some "p1") (some "asia-east1")).1 =
        Except.ok "projects/p1/locations/asia-east1") := by
  refine ⟨?_, ?_, ?_, ?_⟩
  · intro c w p l err hl hv
    simp [Config.common_location_path, hl, hv]
  · intro c w p l ps hvimp hps
    by_cases hl : optStrTruthy l = true
    · simp only [Config.common_location_path, hl, if_true, hvimp hl]
      rw [commonLocationJoin_ok c w p l ps hps]
      simp [hl]
    · simp only [Config.common_location_path, hl, Bool.false_eq_true, if_false]
      rw [commonLocationJoin_ok c w p l ps hps]
      simp [hl]
  · intro c w p l e hvimp hp he
    by_cases hl : optStrTruthy l = true
    · simp only [Config.common_location_path, hl, if_true, hvimp hl]
      exact commonLocationJoin_error c w p l e hp he
    · simp only [Config.common_location_path, hl, Bool.false_eq_true, if_false]
      exact commonLocationJoin_error c w p l e hp he
  · intro w
    have hl : optStrTruthy (some "asia-east1") = true := by decide
    have hv : validate_region ((some "asia-east1").getD "") = Except.ok () := by decide
    simp only [Config.common_location_path, hl, if_true, hv]
    have h := commonLocationJoin_ok Config.fresh w (some "p1") (some "asia-east1")
      "p1" (by rw [if_pos (show optStrTruthy (some "p1") = true by decide)]; rfl)
    rw [h]
    decide

/-- C10 amended witness: the corrected concrete example; an ambient
project fallback; and a rejected location argument. -/
theorem common_location_path_resolution_witness :
    (Config.fresh.common_location_path ⟨fun _ => .authError "x", 0, 0, []⟩
        (some "p1") (some "asia-east1")).1 =
      Except.ok "projects/p1/locations/asia-east1" ∧
    (Config.fresh.common_location_path ⟨fun _ => .ok ⟨1⟩ (some "ambient"), 0, 0, []⟩
        none none).1 = Except.ok "projects/ambient/locations/us-central1" ∧
    Config.fresh.common_location_path ⟨fun _ => .authError "x", 0, 0, []⟩
        (some "p2") (some "not-a-region") =
      (Except.error (PyError.invalidArgument "Unsupported region for AI Platform."),
        Config.fresh, ⟨fun _ => .authError "x", 0, 0, []⟩) := by
  refine ⟨?_, ?_, ?_⟩
  · exact common_location_path_resolution.2.2.2 ⟨fun _ => .authError "x", 0, 0, []⟩
  · have h := common_location_path_resolution.2.1 Config.fresh
      ⟨fun _ => .ok ⟨1⟩ (some "ambient"), 0, 0, []⟩ none none "ambient"
      (by intro h; cases h) (by decide)
    rw [h]
    decide
  · exact common_location_path_resolution.1 Config.fresh
      ⟨fun _ => .authError "x", 0, 0, []⟩ (some "p2") (some "not-a-region")
      (PyError.invalidArgument "Unsupported region for AI Platform.")
      (by decide) (by decide)
